import Mathlib

/-!
Verification of the debate-platform web client (`frontend/script.js`).

The client is a single-page JavaScript program driven by WebSocket events.
Its whole mutable state is the global `appState` object plus a handful of
DOM elements and `localStorage` keys.  We embed that state as the record
`AppState` below, and each JavaScript handler function as a Lean function
of the same name acting on `AppState`.  Purely visual DOM effects
(CSS classes on the connection overlay, progress-step styling, scrolling)
are not part of the observable behaviour any sentence of the specification
refers to and are omitted; element visibility, displayed text, the list of
sent frames, shown messages, scheduled timeouts and `localStorage` contents
are all modelled explicitly.  Asynchronous `setTimeout` callbacks are
modelled by recording the scheduled (delay, action) pair; `setInterval`
for the readiness heartbeat is modelled by an `Option` field holding the
interval length while armed.  Event arrival is modelled by the `step`
function over the `AppEvent` type (the client is single-threaded, so a run
is a fold of `step` over a list of events).
-/

/-- Outbound wire frames sent via `sendWebSocketMessage` (client → server). -/
inductive Frame where
  | authenticate (username password : String)
  | createAccount (username password : String)
  | startDebate (user_id debate_id : Nat)
  | pingReady (user_id debate_id : Nat)
  | debateMessage (user_id : Nat) (content : String)
deriving Repr, DecidableEq

/-- Actions the code schedules with `setTimeout`. -/
inductive TimedAction where
  | reconnect            -- `connectWebSocket` after `reconnectDelay` (handleWebSocketClose)
  | testAuth             -- `authenticateTestUser` after 500 ms (handleWebSocketOpen)
  | startDebateProc      -- `startDebateProcess` after 1000 ms (handleAuthResponse, debate page)
  | redirectMatchmaking  -- redirect to matchmaking.html after 1000 ms (handleAuthResponse)
  | redirectEnd          -- redirect to end.html after 2000 ms (handleDebateEnded)
deriving Repr, DecidableEq

/-- The `currentUser` object built by `handleAuthResponse` and stored under
the `debateUser` localStorage key. -/
structure Identity where
  id : Nat
  username : String
  mmr : Int
  userClass : Nat
deriving Repr, DecidableEq

/-- The `currentDebate` object (as built by `handleDebateInitialized`;
`handleDebateStarted` updates the sides and phase). -/
structure DebateCtx where
  id : Nat
  topic : String
  yourSide : Option String
  opponentSide : Option String
  prepTime : Option Nat
  phase : Option String
deriving Repr, DecidableEq

/-- One entry of a debate transcript (a `message` frame payload). -/
structure MsgData where
  sender_id : Nat
  sender_username : String
  content : String
  timestamp : Nat
  turn_number : Nat
deriving Repr, DecidableEq

/-- Payload of `debate_ended`, stored under the `finalDebateData`
localStorage key by `handleDebateEnded`. -/
structure EndData where
  topic : String
  final_log : List MsgData
deriving Repr, DecidableEq

/-- The three client-local persisted records (`localStorage` keys
`debateUser`, `currentDebate`, `finalDebateData`). -/
structure LocalStore where
  debateUser : Option Identity
  currentDebate : Option DebateCtx
  finalDebateData : Option EndData
deriving Repr, DecidableEq

/-- Payload of an `auth_response` frame. -/
structure AuthData where
  success : Bool
  user_id : Nat
  username : String
  mmr : Int
  user_class : Option Nat
  error : String
deriving Repr, DecidableEq

/-- Payload of a `debate_initialized` frame. -/
structure DebateInitData where
  debate_id : Nat
  topic : String
  your_side : String
  opponent_side : String
  prep_time_minutes : Nat
deriving Repr, DecidableEq

/-- Payload of a `debate_started` frame. -/
structure DebateStartedData where
  your_side : String
  opponent_side : String
deriving Repr, DecidableEq

/-- Payload of a `your_turn` / `opponent_turn` frame (`side` is the
`your_side` resp. `opponent_side` field, absent when the server omits it). -/
structure TurnData where
  turn_number : Nat
  side : Option String
deriving Repr, DecidableEq

/-- Payload of a `prep_timer_start` / `prep_timer` / `turn_timer` frame. -/
structure TimerData where
  type : String
  display : Option String
  remaining_seconds : Option Int
deriving Repr, DecidableEq

/-- Turn owner, for observations on the debate UI state. -/
inductive TurnOwner where
  | self
  | opponent
deriving Repr, DecidableEq

/-- The client state: the global `appState` object of `script.js` together
with the observable DOM state, scheduled timeouts, the heartbeat interval,
sent frames, shown messages and `localStorage`. -/
structure AppState where
  /-- `appState.websocket` exists and `readyState === WebSocket.OPEN`. -/
  websocketOpen : Bool
  currentUser : Option Identity
  currentDebate : Option DebateCtx
  reconnectAttempts : Nat
  maxReconnectAttempts : Nat
  reconnectDelay : Nat
  isConnected : Bool
  isAuthenticated : Bool
  currentUserId : Option Nat
  connectionState : String
  /-- Pending `setTimeout` callbacks, as (delay ms, action) in scheduling order. -/
  pendingTimeouts : List (Nat × TimedAction)
  /-- `autoPingInterval`: `some ms` while the heartbeat interval is armed. -/
  autoPingIntervalMs : Option Nat
  /-- Frames passed to `websocket.send`, in order. -/
  sentFrames : List Frame
  /-- Messages shown via `showMessage(…, 'error')`. -/
  errorMessages : List String
  /-- Messages shown via `showMessage` with a non-error type. -/
  infoMessages : List String
  localStore : LocalStore
  /-- `window.location.pathname`. -/
  locationPath : String
  /-- Text of the `timerLabel` element. -/
  timerLabel : String
  /-- Text of the `turnStatus` element. -/
  turnStatus : String
  /-- Text of the `timerDisplay` element. -/
  timerDisplay : String
  /-- Width of the `timerBar` element in percent, as set by the timer handlers. -/
  timerBarWidthPct : Option ℚ
  /-- The `argumentInputContainer` element is visible. -/
  argumentInputVisible : Bool
  /-- The `waitingMessage` element is visible. -/
  waitingVisible : Bool
  /-- Value of the `argumentInput` text area. -/
  argumentInput : String
  /-- Text of the `debatePhase` element. -/
  debatePhaseText : String
  /-- Messages appended to the `debateLog` element by `addDebateMessage`. -/
  transcript : List MsgData
deriving Repr, DecidableEq

/-- JavaScript truthiness of an optional number (`undefined`/`null`/`0` are falsy). -/
def jsTruthyNat (o : Option Nat) : Bool :=
  o.getD 0 != 0

/-- JavaScript `s.trim()`: remove leading and trailing whitespace. -/
def jsTrim (s : String) : String :=
  { data := ((s.data.dropWhile Char.isWhitespace).reverse.dropWhile Char.isWhitespace).reverse }

/-- JavaScript `haystack.includes(needle)` for a non-empty needle. -/
def jsIncludes (haystack needle : String) : Bool :=
  (haystack.splitOn needle).length > 1

/-- The initial `appState` literal (script.js lines 1–12), together with an
empty DOM/effect/localStorage environment. -/
def initialAppState : AppState where
  websocketOpen := false
  currentUser := none
  currentDebate := none
  reconnectAttempts := 0
  maxReconnectAttempts := 5
  reconnectDelay := 2000
  isConnected := false
  isAuthenticated := false
  currentUserId := none
  connectionState := "disconnected"
  pendingTimeouts := []
  autoPingIntervalMs := none
  sentFrames := []
  errorMessages := []
  infoMessages := []
  localStore := ⟨none, none, none⟩
  locationPath := "/debate.html"
  timerLabel := ""
  turnStatus := ""
  timerDisplay := ""
  timerBarWidthPct := none
  argumentInputVisible := false
  waitingVisible := false
  argumentInput := ""
  debatePhaseText := ""
  transcript := []

/-- `setConnectionState`: records the new state (the rest of the function
only restyles the connection overlay). -/
def setConnectionState (s : AppState) (newState : String) : AppState :=
  { s with connectionState := newState }

/-- `showMessage(message, type)`: records the transient user-visible message. -/
def showMessage (s : AppState) (message ty : String) : AppState :=
  if ty = "error" then { s with errorMessages := s.errorMessages ++ [message] }
  else { s with infoMessages := s.infoMessages ++ [message] }

/-- `sendWebSocketMessage`: sends only when the socket is open, otherwise
reports an error and returns `false`. -/
def sendWebSocketMessage (s : AppState) (m : Frame) : AppState × Bool :=
  if s.websocketOpen then ({ s with sentFrames := s.sentFrames ++ [m] }, true)
  else (showMessage s "Not connected to server" "error", false)

/-- `connectWebSocket`: state → `connecting`, then constructs the transport;
`constructOk = false` is the `catch` branch (construction failure → state
`disconnected`, no retry scheduled).  A freshly constructed socket is not
yet open. -/
def connectWebSocket (s : AppState) (constructOk : Bool) : AppState :=
  let s := setConnectionState s "connecting"
  if constructOk then { s with websocketOpen := false }
  else setConnectionState s "disconnected"

/-- `handleWebSocketOpen`: the socket is now open; reset the attempt
counter, state → `connected`, and schedule `authenticateTestUser` after
500 ms. -/
def handleWebSocketOpen (s : AppState) : AppState :=
  let s := { s with isConnected := true, websocketOpen := true, reconnectAttempts := 0 }
  let s := setConnectionState s "connected"
  { s with pendingTimeouts := s.pendingTimeouts ++ [(500, TimedAction.testAuth)] }

/-- `handleWebSocketClose`: if `reconnectAttempts < maxReconnectAttempts`,
increment the counter and schedule `connectWebSocket` after
`reconnectDelay`; otherwise show the terminal connection-lost error.
Note the handler never writes `appState.connectionState`. -/
def handleWebSocketClose (s : AppState) : AppState :=
  let s := { s with isConnected := false, websocketOpen := false }
  if s.reconnectAttempts < s.maxReconnectAttempts then
    { s with reconnectAttempts := s.reconnectAttempts + 1,
             pendingTimeouts := s.pendingTimeouts ++ [(s.reconnectDelay, TimedAction.reconnect)] }
  else
    showMessage s "Connection lost. Please refresh the page." "error"

/-- `authenticateTestUser`: sends the hardcoded test credentials. -/
def authenticateTestUser (s : AppState) : AppState :=
  (sendWebSocketMessage s (Frame.authenticate "test" "testpass")).1

/-- `startDebateProcess`: sends `start_debate` when a user id is set
(JavaScript falsy check `!appState.currentUserId`). -/
def startDebateProcess (s : AppState) : AppState :=
  if jsTruthyNat s.currentUserId then
    (sendWebSocketMessage s (Frame.startDebate (s.currentUserId.getD 0) 1)).1
  else s

/-- `handleAuthResponse`: on success builds `currentUser` (with
`user_class || 0`), persists it under `debateUser`, state → `authenticated`,
then either schedules `startDebateProcess` (debate page) or shows the login
success message and schedules the redirect; on failure state →
`disconnected` and the server error is shown. -/
def handleAuthResponse (s : AppState) (d : AuthData) : AppState :=
  if d.success then
    let user : Identity :=
      { id := d.user_id, username := d.username, mmr := d.mmr,
        userClass := d.user_class.getD 0 }
    let s := { s with currentUser := some user, isAuthenticated := true,
                      currentUserId := some d.user_id,
                      localStore := { s.localStore with debateUser := some user } }
    let s := setConnectionState s "authenticated"
    if jsIncludes s.locationPath "debate.html" then
      { s with pendingTimeouts := s.pendingTimeouts ++ [(1000, TimedAction.startDebateProc)] }
    else
      let s := showMessage s "Login successful!" "success"
      { s with pendingTimeouts := s.pendingTimeouts ++ [(1000, TimedAction.redirectMatchmaking)] }
  else
    let s := setConnectionState s "disconnected"
    showMessage s d.error "error"

/-- `handleCreateAccountSubmit`: local validation (all fields non-empty,
passwords match) before sending `create_account`. -/
def handleCreateAccountSubmit (s : AppState) (username password confirmPassword : String) :
    AppState :=
  if username = "" || password = "" || confirmPassword = "" then
    showMessage s "Please fill in all fields" "error"
  else if password != confirmPassword then
    showMessage s "Passwords do not match" "error"
  else
    (sendWebSocketMessage s (Frame.createAccount username password)).1

/-- `handleLogout`: removes the `debateUser` localStorage key, closes the
socket and navigates to the login page. -/
def handleLogout (s : AppState) : AppState :=
  { s with localStore := { s.localStore with debateUser := none },
           websocketOpen := false,
           locationPath := "login.html" }

/-- The return-to-lobby click handler installed by `initializeEndPage`:
removes the `currentDebate` and `finalDebateData` localStorage keys and
navigates back to matchmaking. -/
def returnToLobby (s : AppState) : AppState :=
  { s with localStore := { s.localStore with currentDebate := none, finalDebateData := none },
           locationPath := "matchmaking.html" }

/-- `stopAutoPing`: clears the heartbeat interval. -/
def stopAutoPing (s : AppState) : AppState :=
  { s with autoPingIntervalMs := none }

/-- `sendPingReady`: silent no-op unless both `currentDebate` and a truthy
`currentUserId` are present; otherwise sends `ping_ready`. -/
def sendPingReady (s : AppState) : AppState :=
  match s.currentDebate with
  | none => s
  | some dbt =>
    if jsTruthyNat s.currentUserId then
      (sendWebSocketMessage s (Frame.pingReady (s.currentUserId.getD 0) dbt.id)).1
    else s

/-- `startAutoPing`: clear any existing interval, send one ping immediately,
then arm the 3000 ms interval. -/
def startAutoPing (s : AppState) : AppState :=
  let s := stopAutoPing s
  let s := sendPingReady s
  { s with autoPingIntervalMs := some 3000 }

/-- One firing of the heartbeat interval: runs `sendPingReady` only while
the interval is armed. -/
def pingTick (s : AppState) : AppState :=
  if s.autoPingIntervalMs.isSome then sendPingReady s else s

/-- `handleDebateInitialized`: stores the debate context with phase
`waiting_for_opponent`, state → `authenticated`, starts the heartbeat. -/
def handleDebateInitialized (s : AppState) (d : DebateInitData) : AppState :=
  let s := { s with currentDebate := some (
    { id := d.debate_id, topic := d.topic,
      yourSide := some d.your_side, opponentSide := some d.opponent_side,
      prepTime := some d.prep_time_minutes, phase := some "waiting_for_opponent" } : DebateCtx) }
  let s := setConnectionState s "authenticated"
  startAutoPing s

/-- `handleDebateStarted`: state → `ready`, record sides and phase
`preparation` on the stored context, stop the heartbeat. -/
def handleDebateStarted (s : AppState) (d : DebateStartedData) : AppState :=
  let s := setConnectionState s "ready"
  let s :=
    match s.currentDebate with
    | some dbt => { s with currentDebate := some (
        { dbt with yourSide := some d.your_side,
                   opponentSide := some d.opponent_side,
                   phase := some "preparation" } : DebateCtx) }
    | none => s
  let s := { s with debatePhaseText := "Preparation" }
  stopAutoPing s

/-- `handlePrepTimer`: label update on `prep_timer_start`; when a (truthy)
display string is present, show it and set the progress bar width to
`((180 - remaining) / 180) * 100` percent (`remaining_seconds || 0`). -/
def handlePrepTimer (s : AppState) (d : TimerData) : AppState :=
  let s :=
    if d.type = "prep_timer_start" then
      { s with timerLabel := "Preparation Time",
               turnStatus := "Preparation phase - get ready for the debate!" }
    else s
  match d.display with
  | some disp =>
    if disp = "" then s
    else
      let s := { s with timerDisplay := disp }
      let totalTime : ℚ := 3 * 60
      let remaining : ℚ := ((d.remaining_seconds.getD 0 : Int) : ℚ)
      { s with timerBarWidthPct := some (((totalTime - remaining) / totalTime) * 100) }
  | none => s

/-- `handleTurnTimer`: like the prep case but with a 120-second total and no
label change. -/
def handleTurnTimer (s : AppState) (d : TimerData) : AppState :=
  match d.display with
  | some disp =>
    if disp = "" then s
    else
      let s := { s with timerDisplay := disp }
      let totalTime : ℚ := 2 * 60
      let remaining : ℚ := ((d.remaining_seconds.getD 0 : Int) : ℚ)
      { s with timerBarWidthPct := some (((totalTime - remaining) / totalTime) * 100) }
  | none => s

/-- `handleYourTurn`: set the turn label and status, show the argument
input, hide the waiting message. -/
def handleYourTurn (s : AppState) (d : TurnData) : AppState :=
  let side := d.side.getD ""
  let sideInfo := if side = "" then "" else " (" ++ side ++ ")"
  let s := { s with
    timerLabel := "Your Turn (" ++ toString d.turn_number ++ ")" ++ sideInfo,
    turnStatus := "It\x27s your turn! Present your " ++
      (if side = "" then "argument" else side) ++ "." }
  { s with argumentInputVisible := true, waitingVisible := false }

/-- `handleOpponentTurn`: set the turn label and status, hide the argument
input, show the waiting message. -/
def handleOpponentTurn (s : AppState) (d : TurnData) : AppState :=
  let side := d.side.getD ""
  let sideInfo := if side = "" then "" else " (" ++ side ++ ")"
  let s := { s with
    timerLabel := "Opponent\x27s Turn (" ++ toString d.turn_number ++ ")" ++ sideInfo,
    turnStatus := "Waiting for opponent\x27s " ++
      (if side = "" then "argument" else side) ++ "..." }
  { s with argumentInputVisible := false, waitingVisible := true }

/-- `submitArgument`: trims the input, rejects empty content with an error
message, requires `currentUser`, sends `debate_message`, clears the input
and leaves the submission UI.  The function performs no turn-state check. -/
def submitArgument (s : AppState) : AppState :=
  let content := jsTrim s.argumentInput
  if content = "" then showMessage s "Please enter an argument" "error"
  else
    match s.currentUser with
    | none => s
    | some user =>
      let s := (sendWebSocketMessage s (Frame.debateMessage user.id content)).1
      { s with argumentInput := "",
               argumentInputVisible := false, waitingVisible := true }

/-- `handleDebateMessage`: appends the message to the debate log (reading
`appState.currentUser.id` throws when no user is set; the dispatcher's
try/catch swallows that, leaving the state unchanged). -/
def handleDebateMessage (s : AppState) (d : MsgData) : AppState :=
  match s.currentUser with
  | none => s
  | some _ => { s with transcript := s.transcript ++ [d] }

/-- `handleDebateEnded`: phase `Finished`, persist the final transcript
under `finalDebateData`, schedule the redirect to the end page. -/
def handleDebateEnded (s : AppState) (d : EndData) : AppState :=
  let s := { s with debatePhaseText := "Finished",
                    localStore := { s.localStore with finalDebateData := some d } }
  { s with pendingTimeouts := s.pendingTimeouts ++ [(2000, TimedAction.redirectEnd)] }

/-- Remove the first pending timeout carrying the given action; `none` when
no such timeout is pending. -/
def takeTimeout : List (Nat × TimedAction) → TimedAction → Option (List (Nat × TimedAction))
  | [], _ => none
  | t :: ts, a => if t.2 = a then some ts else (takeTimeout ts a).map (t :: ·)

/-- The events the client reacts to: WebSocket lifecycle callbacks, inbound
frames routed by `handleWebSocketMessage`, timer/interval firings and user
actions. -/
inductive AppEvent where
  | wsOpen
  | wsClose
  | connectPage (constructOk : Bool)
  | fireReconnect (constructOk : Bool)
  | fireTestAuth
  | authResponse (d : AuthData)
  | debateInitialized (d : DebateInitData)
  | debateStarted (d : DebateStartedData)
  | pingTick
  | yourTurn (d : TurnData)
  | opponentTurn (d : TurnData)
  | prepTimer (d : TimerData)
  | turnTimer (d : TimerData)
  | debateMsg (d : MsgData)
  | debateEnded (d : EndData)
  | submit
  | createAccountSubmit (username password confirmPassword : String)
  | logout
  | returnToLobby
deriving Repr, DecidableEq

/-- Single-threaded event dispatch: each event runs the corresponding
handler to completion. -/
def step (s : AppState) : AppEvent → AppState
  | .wsOpen => handleWebSocketOpen s
  | .wsClose => handleWebSocketClose s
  | .connectPage ok => connectWebSocket s ok
  | .fireReconnect ok =>
    match takeTimeout s.pendingTimeouts TimedAction.reconnect with
    | some ts => connectWebSocket { s with pendingTimeouts := ts } ok
    | none => s
  | .fireTestAuth =>
    match takeTimeout s.pendingTimeouts TimedAction.testAuth with
    | some ts => authenticateTestUser { s with pendingTimeouts := ts }
    | none => s
  | .authResponse d => handleAuthResponse s d
  | .debateInitialized d => handleDebateInitialized s d
  | .debateStarted d => handleDebateStarted s d
  | .pingTick => pingTick s
  | .yourTurn d => handleYourTurn s d
  | .opponentTurn d => handleOpponentTurn s d
  | .prepTimer d => handlePrepTimer s d
  | .turnTimer d => handleTurnTimer s d
  | .debateMsg d => handleDebateMessage s d
  | .debateEnded d => handleDebateEnded s d
  | .submit => submitArgument s
  | .createAccountSubmit u p c => handleCreateAccountSubmit s u p c
  | .logout => handleLogout s
  | .returnToLobby => returnToLobby s

/-- Run a sequence of events from a state. -/
def runEvents (s : AppState) (events : List AppEvent) : AppState :=
  events.foldl step s

/-- Number of scheduled reconnects. -/
def pendingReconnectCount (s : AppState) : Nat :=
  (s.pendingTimeouts.filter (fun t => t.2 == TimedAction.reconnect)).length

/-- Every value `connectionState` is ever assigned. -/
def connStateValues : List String :=
  ["disconnected", "connecting", "connected", "authenticated", "ready"]

/-- Which turn owner the debate UI currently indicates, read off the turn
label written by `handleYourTurn` / `handleOpponentTurn`. -/
def ownerIndicated (s : AppState) : Option TurnOwner :=
  if ("Your Turn".data).isPrefixOf s.timerLabel.data then some TurnOwner.self
  else if ("Opponent".data).isPrefixOf s.timerLabel.data then some TurnOwner.opponent
  else none

/-- The UI never invites submission (MyTurn presentation) and shows the
opponent-waiting message (OpponentTurn presentation) at the same time. -/
def turnMutex (s : AppState) : Bool :=
  !(s.argumentInputVisible && s.waitingVisible)

/-- The progress bar value as a fraction of the whole bar. -/
def progressFraction (s : AppState) : Option ℚ :=
  s.timerBarWidthPct.map (fun w => w / 100)

/-- The user from the specification's authentication scenario. -/
def aliceUser : Identity :=
  { id := 7, username := "alice", mmr := 1500, userClass := 0 }

/-- Page load followed by five consecutive unexpected closes; each close
before the last is followed by its scheduled reconnect firing (and the
resulting connection attempt is what
closes next). -/
def fiveCloseTrace : List AppEvent :=
  [AppEvent.connectPage true, AppEvent.wsOpen,
   AppEvent.wsClose, AppEvent.fireReconnect true,
   AppEvent.wsClose, AppEvent.fireReconnect true,
   AppEvent.wsClose, AppEvent.fireReconnect true,
   AppEvent.wsClose, AppEvent.fireReconnect true,
   AppEvent.wsClose]

/-- The same run continued: the fifth scheduled reconnect fires and that
sixth connection attempt also closes. -/
def sixCloseTrace : List AppEvent :=
  fiveCloseTrace ++ [AppEvent.fireReconnect true, AppEvent.wsClose]

/-- A debate-page state in which the opponent owns the turn but the
argument input still holds text: the last turn event was `opponent_turn`. -/
def notMyTurnState : AppState :=
  handleOpponentTurn
    { initialAppState with websocketOpen := true, currentUser := some aliceUser,
                           argumentInput := "  hi  " }
    { turn_number := 2, side := some "Negation" }

/-- A debate-page state whose argument input is whitespace only. -/
def blankInputState : AppState :=
  { initialAppState with websocketOpen := true, currentUser := some aliceUser,
                         argumentInput := "   " }

/-- A `prep_timer` snapshot whose remaining time exceeds the fixed
180-second total. -/
def overLongPrepTimer : TimerData :=
  { type := "prep_timer", display := some "06:00", remaining_seconds := some 360 }

/-- The `debate_initialized` payload from the specification's matchmaking
scenario. -/
def sampleDebateInit : DebateInitData :=
  { debate_id := 42, topic := "T", your_side := "Proposition",
    opponent_side := "Negation", prep_time_minutes := 3 }

/-- An authenticated, connected state before `debate_initialized` arrives. -/
def preDebateState : AppState :=
  { initialAppState with websocketOpen := true, currentUserId := some 7 }

/-- The successful `auth_response` from the specification's scenario. -/
def authOkData : AuthData :=
  { success := true, user_id := 7, username := "alice", mmr := 1500,
    user_class := some 0, error := "" }

/-- A failed `auth_response`. -/
def authFailData : AuthData :=
  { success := false, user_id := 0, username := "", mmr := 0,
    user_class := none, error := "Invalid credentials" }

/-- A stored debate context, as persisted across page loads. -/
def storedCtx : DebateCtx :=
  { id := 42, topic := "T", yourSide := some "Proposition",
    opponentSide := some "Negation", prepTime := some 3, phase := some "debate" }

/-- A stored final transcript. -/
def storedFinal : EndData :=
  { topic := "T", final_log := [] }

/-- A state in which all three client-local records are persisted. -/
def allStoredState : AppState :=
  { initialAppState with
      localStore := { debateUser := some aliceUser, currentDebate := some storedCtx,
                      finalDebateData := some storedFinal } }

/-- A state whose reconnection budget is exhausted. -/
def exhaustedState : AppState :=
  { initialAppState with reconnectAttempts := 5 }

/-- A prefix of a list is a prefix of any extension of that list. -/
theorem isPrefixOf_append_left (l1 l2 t : List Char) (h : l1.isPrefixOf l2 = true) :
    l1.isPrefixOf (l2 ++ t) = true := by
  induction l1 generalizing l2 with
  | nil => simp [List.isPrefixOf]
  | cons a as ih =>
    cases l2 with
    | nil => simp [List.isPrefixOf] at h
    | cons b bs =>
      simp only [List.isPrefixOf, List.cons_append, Bool.and_eq_true, beq_iff_eq] at h ⊢
      exact ⟨h.1, ih bs h.2⟩

/-- Lists with different heads are not prefixes of one another. -/
theorem isPrefixOf_false_of_head_ne {a b : Char} (as bs : List Char) (h : ¬ a = b) :
    (a :: as).isPrefixOf (b :: bs) = false := by
  simp [List.isPrefixOf, h]

theorem ownerIndicated_eq_self_of_label (s : AppState)
    (h : ("Your Turn".data).isPrefixOf s.timerLabel.data = true) :
    ownerIndicated s = some TurnOwner.self := by
  unfold ownerIndicated
  simp [h]

theorem ownerIndicated_eq_opp_of_label (s : AppState)
    (h1 : ("Your Turn".data).isPrefixOf s.timerLabel.data = false)
    (h2 : ("Opponent".data).isPrefixOf s.timerLabel.data = true) :
    ownerIndicated s = some TurnOwner.opponent := by
  unfold ownerIndicated
  simp [h1, h2]

theorem handleYourTurn_timerLabel (s : AppState) (d : TurnData) :
    (handleYourTurn s d).timerLabel =
      "Your Turn (" ++ toString d.turn_number ++ ")" ++
        (if d.side.getD "" = "" then "" else " (" ++ d.side.getD "" ++ ")") := rfl

theorem handleOpponentTurn_timerLabel (s : AppState) (d : TurnData) :
    (handleOpponentTurn s d).timerLabel =
      "Opponent\x27s Turn (" ++ toString d.turn_number ++ ")" ++
        (if d.side.getD "" = "" then "" else " (" ++ d.side.getD "" ++ ")") := rfl

theorem ownerIndicated_handleYourTurn (s : AppState) (d : TurnData) :
    ownerIndicated (handleYourTurn s d) = some TurnOwner.self := by
  apply ownerIndicated_eq_self_of_label
  rw [handleYourTurn_timerLabel]
  simp only [String.data_append, List.append_assoc]
  exact isPrefixOf_append_left _ _ _ (by decide)

theorem ownerIndicated_handleOpponentTurn (s : AppState) (d : TurnData) :
    ownerIndicated (handleOpponentTurn s d) = some TurnOwner.opponent := by
  apply ownerIndicated_eq_opp_of_label
  · rw [handleOpponentTurn_timerLabel]
    simp only [String.data_append, List.append_assoc]
    rw [List.cons_append]
    exact isPrefixOf_false_of_head_ne _ _ (by decide)
  · rw [handleOpponentTurn_timerLabel]
    simp only [String.data_append, List.append_assoc]
    exact isPrefixOf_append_left _ _ _ (by decide)

theorem submitArgument_timerLabel (s : AppState) :
    (submitArgument s).timerLabel = s.timerLabel := by
  simp only [submitArgument, sendWebSocketMessage, showMessage]
  repeat' split
  all_goals rfl

theorem step_maxReconnectAttempts (s : AppState) (e : AppEvent) :
    (step s e).maxReconnectAttempts = s.maxReconnectAttempts := by
  cases e <;>
    simp only [step, handleWebSocketOpen, handleWebSocketClose, connectWebSocket,
      setConnectionState, showMessage, sendWebSocketMessage, authenticateTestUser,
      handleAuthResponse, handleDebateInitialized, startAutoPing, stopAutoPing, sendPingReady,
      pingTick, handleDebateStarted, handlePrepTimer, handleTurnTimer, handleYourTurn,
      handleOpponentTurn, handleDebateMessage, handleDebateEnded, submitArgument,
      handleCreateAccountSubmit, handleLogout, returnToLobby] <;>
    (repeat' split) <;> rfl

set_option linter.unnecessarySeqFocus false in
theorem step_attempts_le (s : AppState) (e : AppEvent)
    (h : s.reconnectAttempts ≤ s.maxReconnectAttempts) :
    (step s e).reconnectAttempts ≤ (step s e).maxReconnectAttempts := by
  cases e <;>
    simp only [step, handleWebSocketOpen, handleWebSocketClose, connectWebSocket,
      setConnectionState, showMessage, sendWebSocketMessage, authenticateTestUser,
      handleAuthResponse, handleDebateInitialized, startAutoPing, stopAutoPing, sendPingReady,
      pingTick, handleDebateStarted, handlePrepTimer, handleTurnTimer, handleYourTurn,
      handleOpponentTurn, handleDebateMessage, handleDebateEnded, submitArgument,
      handleCreateAccountSubmit, handleLogout, returnToLobby] <;>
    (repeat' split) <;> simp_all <;> try omega

theorem runEvents_attempts_le (events : List AppEvent) :
    (runEvents initialAppState events).reconnectAttempts ≤
      (runEvents initialAppState events).maxReconnectAttempts := by
  suffices h : ∀ s : AppState, s.reconnectAttempts ≤ s.maxReconnectAttempts →
      ∀ evs : List AppEvent,
        (runEvents s evs).reconnectAttempts ≤ (runEvents s evs).maxReconnectAttempts by
    exact h initialAppState (by decide) events
  intro s hs evs
  induction evs generalizing s with
  | nil => exact hs
  | cons e es ih => exact ih (step s e) (step_attempts_le s e hs)

theorem step_connState_mem (s : AppState) (e : AppEvent)
    (h : s.connectionState ∈ connStateValues) :
    (step s e).connectionState ∈ connStateValues := by
  cases e <;>
    simp only [step, handleWebSocketOpen, handleWebSocketClose, connectWebSocket,
      setConnectionState, showMessage, sendWebSocketMessage, authenticateTestUser,
      handleAuthResponse, handleDebateInitialized, startAutoPing, stopAutoPing, sendPingReady,
      pingTick, handleDebateStarted, handlePrepTimer, handleTurnTimer, handleYourTurn,
      handleOpponentTurn, handleDebateMessage, handleDebateEnded, submitArgument,
      handleCreateAccountSubmit, handleLogout, returnToLobby] <;>
    (repeat' split) <;> first | exact h | decide | simp [connStateValues]

theorem runEvents_connState_mem (events : List AppEvent) :
    (runEvents initialAppState events).connectionState ∈ connStateValues := by
  suffices h : ∀ s : AppState, s.connectionState ∈ connStateValues →
      ∀ evs : List AppEvent, (runEvents s evs).connectionState ∈ connStateValues by
    exact h initialAppState (by decide) events
  intro s hs evs
  induction evs generalizing s with
  | nil => exact hs
  | cons e es ih => exact ih (step s e) (step_connState_mem s e hs)

theorem turnMutex_step (s : AppState) (e : AppEvent) (h : turnMutex s = true) :
    turnMutex (step s e) = true := by
  cases e <;>
    simp only [step, turnMutex, handleWebSocketOpen, handleWebSocketClose, connectWebSocket,
      setConnectionState, showMessage, sendWebSocketMessage, authenticateTestUser,
      handleAuthResponse, handleDebateInitialized, startAutoPing, stopAutoPing, sendPingReady,
      pingTick, handleDebateStarted, handlePrepTimer, handleTurnTimer, handleYourTurn,
      handleOpponentTurn, handleDebateMessage, handleDebateEnded, submitArgument,
      handleCreateAccountSubmit, handleLogout, returnToLobby] at h ⊢ <;>
    (repeat' split) <;> simp_all

/-- C1 (counterexample): after five consecutive unexpected closes with
`maxAttempts = 5`, the connection state is not `lost` (no such value is
ever assigned) and exactly one scheduled reconnect remains — not zero. -/
theorem C1_five_closes_counterexample :
    ((runEvents initialAppState fiveCloseTrace).connectionState == "lost") = false ∧
    pendingReconnectCount (runEvents initialAppState fiveCloseTrace) = 1 := by
  decide

/-- C1 (amended): the attempt counter allows five scheduled reconnects, so
the terminal condition is reached on the sixth consecutive close, after
which zero scheduled reconnects remain and the terminal
connection-lost error is surfaced; the `connectionState` value itself only
ever ranges over `connStateValues`, which does not include a `lost`
value — the terminal condition is reported via the error message while
`connectionState` keeps its previous value. -/
theorem C1_reconnect_exhaustion :
    (∀ events : List AppEvent,
        (runEvents initialAppState events).connectionState ∈ connStateValues) ∧
    connStateValues.contains "lost" = false ∧
    pendingReconnectCount (runEvents initialAppState sixCloseTrace) = 0 ∧
    (runEvents initialAppState sixCloseTrace).reconnectAttempts = 5 ∧
    "Connection lost. Please refresh the page." ∈
      (runEvents initialAppState sixCloseTrace).errorMessages := by
  exact ⟨runEvents_connState_mem, by decide, by decide, by decide, by decide⟩

/-- C2: over every event sequence from the initial state the reconnection
attempt counter never exceeds `maxReconnectAttempts`; a close arriving when
the counter has reached the maximum schedules no further reconnect; and a
successful open resets the counter to 0. -/
theorem C2_attempt_counter :
    (∀ events : List AppEvent,
        (runEvents initialAppState events).reconnectAttempts ≤
          (runEvents initialAppState events).maxReconnectAttempts) ∧
    (∀ s : AppState, s.reconnectAttempts = s.maxReconnectAttempts →
        pendingReconnectCount (handleWebSocketClose s) = pendingReconnectCount s) ∧
    (∀ s : AppState, (handleWebSocketOpen s).reconnectAttempts = 0) := by
  refine ⟨runEvents_attempts_le, ?_, fun s => rfl⟩
  intro s h
  simp [handleWebSocketClose, pendingReconnectCount, showMessage, h]

/-- Witness for C2 at a concrete exhausted state. -/
theorem C2_attempt_counter_witness :
    pendingReconnectCount (handleWebSocketClose exhaustedState) =
      pendingReconnectCount exhaustedState := by
  exact C2_attempt_counter.2.1 exhaustedState rfl

/-- C3 (counterexample): with the opponent-turn presentation active (not
MyTurn), a non-empty input, a current user and an open socket,
`submitArgument` still sends the `debate_message` frame — no local turn
check rejects it. -/
theorem C3_not_my_turn_counterexample :
    ownerIndicated notMyTurnState = some TurnOwner.opponent ∧
    (submitArgument notMyTurnState).sentFrames = [Frame.debateMessage 7 "hi"] := by
  decide

/-- C3 (amended): `submitArgument` trims surrounding whitespace and rejects
empty content without sending any frame (showing a local error message);
but it performs no turn-state check: whenever the trimmed content is
non-empty, a current user exists and the socket is open, it sends the
`debate_message` frame even when the state is not MyTurn — out-of-turn
submission is prevented only by the UI hiding the input controls. -/
theorem C3_submit_no_turn_check :
    (∀ s : AppState, jsTrim s.argumentInput = "" →
        (submitArgument s).sentFrames = s.sentFrames ∧
        (submitArgument s).errorMessages = s.errorMessages ++ ["Please enter an argument"]) ∧
    (∀ (s : AppState) (u : Identity), s.currentUser = some u → s.websocketOpen = true →
        jsTrim s.argumentInput ≠ "" →
        (submitArgument s).sentFrames =
          s.sentFrames ++ [Frame.debateMessage u.id (jsTrim s.argumentInput)]) := by
  constructor
  · intro s h
    simp [submitArgument, showMessage, h]
  · intro s u hu hw h
    simp [submitArgument, sendWebSocketMessage, showMessage, hu, hw, h]

/-- Witness for C3 at concrete states. -/
theorem C3_submit_no_turn_check_witness :
    (submitArgument blankInputState).sentFrames = blankInputState.sentFrames ∧
    (submitArgument notMyTurnState).sentFrames =
      notMyTurnState.sentFrames ++
        [Frame.debateMessage aliceUser.id (jsTrim notMyTurnState.argumentInput)] := by
  exact ⟨(C3_submit_no_turn_check.1 blankInputState (by decide)).1,
         C3_submit_no_turn_check.2 notMyTurnState aliceUser (by decide) (by decide) (by decide)⟩

/-- C4: `your_turn` always sets the indicated owner to self and
`opponent_turn` to opponent; `submitArgument` never changes the indicated
owner; the sequence your_turn, opponent_turn, your_turn yields owners
self, opponent, self from any state; and no event can make the UI indicate
MyTurn (argument input shown) and OpponentTurn (waiting message shown)
simultaneously. -/
theorem C4_turn_ownership :
    (∀ (s : AppState) (d : TurnData),
        ownerIndicated (handleYourTurn s d) = some TurnOwner.self) ∧
    (∀ (s : AppState) (d : TurnData),
        ownerIndicated (handleOpponentTurn s d) = some TurnOwner.opponent) ∧
    (∀ s : AppState, ownerIndicated (submitArgument s) = ownerIndicated s) ∧
    (∀ (s : AppState) (d1 d2 d3 : TurnData),
        ownerIndicated (handleYourTurn s d1) = some TurnOwner.self ∧
        ownerIndicated (handleOpponentTurn (handleYourTurn s d1) d2) =
          some TurnOwner.opponent ∧
        ownerIndicated (handleYourTurn (handleOpponentTurn (handleYourTurn s d1) d2) d3) =
          some TurnOwner.self) ∧
    (∀ (s : AppState) (e : AppEvent), turnMutex s = true → turnMutex (step s e) = true) := by
  refine ⟨ownerIndicated_handleYourTurn, ownerIndicated_handleOpponentTurn, ?_, ?_,
    turnMutex_step⟩
  · intro s
    unfold ownerIndicated
    rw [submitArgument_timerLabel]
  · intro s d1 d2 d3
    exact ⟨ownerIndicated_handleYourTurn _ _, ownerIndicated_handleOpponentTurn _ _,
           ownerIndicated_handleYourTurn _ _⟩

/-- Witness for C4 at a concrete state and event. -/
theorem C4_turn_ownership_witness :
    ownerIndicated (handleYourTurn initialAppState { turn_number := 1, side := some "Proposition" }) =
      some TurnOwner.self ∧
    turnMutex (step initialAppState AppEvent.submit) = true := by
  exact ⟨C4_turn_ownership.1 initialAppState { turn_number := 1, side := some "Proposition" },
         C4_turn_ownership.2.2.2.2 initialAppState AppEvent.submit (by decide)⟩

/-- C5 (counterexample): a `prep_timer` snapshot with `remaining_seconds =
360` (more than the fixed 180-second total) yields progress `-1`, which
lies outside `[0, 1]` — the computed progress value is not clamped. -/
theorem C5_unclamped_counterexample :
    progressFraction (handlePrepTimer initialAppState overLongPrepTimer) = some (-1) ∧
    (-1 : ℚ) < 0 := by
  constructor
  · simp [progressFraction, handlePrepTimer, overLongPrepTimer]
    norm_num
  · norm_num

/-- C5 (amended): the timer handlers compute the progress value exactly as
`((total - remaining) / total) * 100` percent with the total fixed per kind
(prep = 180 s, turn = 120 s) independent of the server payload; the value
is not clamped: a remaining time above the total yields a negative
progress and a negative remaining time yields a progress above 100 %. -/
theorem C5_progress_formula_unclamped :
    (∀ (s : AppState) (d : TimerData), d.display.getD "" ≠ "" →
        (handlePrepTimer s d).timerBarWidthPct =
          some ((((3 * 60 : ℚ) - ((d.remaining_seconds.getD 0 : Int) : ℚ)) / (3 * 60)) * 100)) ∧
    (∀ (s : AppState) (d : TimerData), d.display.getD "" ≠ "" →
        (handleTurnTimer s d).timerBarWidthPct =
          some ((((2 * 60 : ℚ) - ((d.remaining_seconds.getD 0 : Int) : ℚ)) / (2 * 60)) * 100)) ∧
    (∀ r : Int, 180 < r → ((((180 : ℚ) - (r : ℚ)) / 180) * 100) < 0) ∧
    (∀ r : Int, r < 0 → 100 < ((((180 : ℚ) - (r : ℚ)) / 180) * 100)) := by
  refine ⟨?_, ?_, ?_, ?_⟩
  · intro s d h
    cases hd : d.display with
    | none => simp [hd] at h
    | some disp =>
      have hne : disp ≠ "" := by simpa [hd] using h
      simp [handlePrepTimer, hd, hne]
  · intro s d h
    cases hd : d.display with
    | none => simp [hd] at h
    | some disp =>
      have hne : disp ≠ "" := by simpa [hd] using h
      simp [handleTurnTimer, hd, hne]
  · intro r h
    have hr : (180 : ℚ) < (r : ℚ) := by exact_mod_cast h
    have h2 : ((180 : ℚ) - (r : ℚ)) / 180 < 0 :=
      div_neg_of_neg_of_pos (by linarith) (by norm_num)
    linarith
  · intro r h
    have hr : (r : ℚ) < 0 := by exact_mod_cast h
    have h2 : 1 < ((180 : ℚ) - (r : ℚ)) / 180 :=
      (one_lt_div (by norm_num)).mpr (by linarith)
    linarith

/-- Witness for C5 at concrete snapshots. -/
theorem C5_progress_formula_unclamped_witness :
    (handlePrepTimer initialAppState overLongPrepTimer).timerBarWidthPct =
      some ((((3 * 60 : ℚ) -
        ((overLongPrepTimer.remaining_seconds.getD 0 : Int) : ℚ)) / (3 * 60)) * 100) ∧
    100 < ((((180 : ℚ) - ((-60 : Int) : ℚ)) / 180) * 100) := by
  exact ⟨C5_progress_formula_unclamped.1 initialAppState overLongPrepTimer (by decide),
         C5_progress_formula_unclamped.2.2.2 (-60) (by norm_num)⟩

/-- C6: `debate_initialized` (entering WaitingOpponent) immediately sends a
`ping_ready` frame and arms the 3000 ms heartbeat interval;
`debate_started` disarms the interval, after which a tick is the identity;
an armed tick runs `sendPingReady`; and `sendPingReady` is a silent no-op
(the state is unchanged, so nothing is sent and no error is shown) when
the debate context or the user id is absent. -/
theorem C6_heartbeat :
    (∀ (s : AppState) (d : DebateInitData) (uid : Nat),
        s.currentUserId = some uid → uid ≠ 0 → s.websocketOpen = true →
        (handleDebateInitialized s d).sentFrames =
          s.sentFrames ++ [Frame.pingReady uid d.debate_id] ∧
        (handleDebateInitialized s d).autoPingIntervalMs = some 3000) ∧
    (∀ (s : AppState) (d : DebateStartedData),
        (handleDebateStarted s d).autoPingIntervalMs = none) ∧
    (∀ s : AppState, s.autoPingIntervalMs = none → pingTick s = s) ∧
    (∀ s : AppState, s.autoPingIntervalMs.isSome = true → pingTick s = sendPingReady s) ∧
    (∀ s : AppState, s.currentDebate = none → sendPingReady s = s) ∧
    (∀ s : AppState, s.currentUserId = none → sendPingReady s = s) := by
  refine ⟨?_, ?_, ?_, ?_, ?_, ?_⟩
  · intro s d uid hu hn hw
    constructor
    · simp [handleDebateInitialized, startAutoPing, stopAutoPing, sendPingReady,
        sendWebSocketMessage, setConnectionState, jsTruthyNat, hu, hn, hw]
    · rfl
  · intro s d
    cases hc : s.currentDebate <;>
      simp [handleDebateStarted, stopAutoPing, setConnectionState, hc]
  · intro s h
    simp [pingTick, h]
  · intro s h
    simp [pingTick, h]
  · intro s h
    simp [sendPingReady, h]
  · intro s h
    cases hc : s.currentDebate <;> simp [sendPingReady, hc, jsTruthyNat, h]

/-- Witness for C6 at concrete states. -/
theorem C6_heartbeat_witness :
    (handleDebateInitialized preDebateState sampleDebateInit).sentFrames =
      preDebateState.sentFrames ++ [Frame.pingReady 7 42] ∧
    pingTick initialAppState = initialAppState := by
  exact ⟨(C6_heartbeat.1 preDebateState sampleDebateInit 7 rfl (by decide) rfl).1,
         C6_heartbeat.2.2.1 initialAppState rfl⟩

/-- C7: on a successful `auth_response` the Identity is built from the
frame fields (with `user_class || 0`), stored in `currentUser` and
persisted under `debateUser`, and the connection state advances to
`authenticated`; on failure the connection state returns to
`disconnected`, the server-provided error is surfaced, and neither
`currentUser` nor the persisted Identity changes. -/
theorem C7_auth_response :
    (∀ (s : AppState) (d : AuthData), d.success = true →
        (handleAuthResponse s d).currentUser = some
          { id := d.user_id, username := d.username, mmr := d.mmr,
            userClass := d.user_class.getD 0 } ∧
        (handleAuthResponse s d).localStore.debateUser = some
          { id := d.user_id, username := d.username, mmr := d.mmr,
            userClass := d.user_class.getD 0 } ∧
        (handleAuthResponse s d).connectionState = "authenticated") ∧
    (∀ (s : AppState) (d : AuthData), d.success = false →
        (handleAuthResponse s d).connectionState = "disconnected" ∧
        (handleAuthResponse s d).errorMessages = s.errorMessages ++ [d.error] ∧
        (handleAuthResponse s d).currentUser = s.currentUser ∧
        (handleAuthResponse s d).localStore.debateUser = s.localStore.debateUser) := by
  constructor
  · intro s d h
    simp only [handleAuthResponse, h, setConnectionState, showMessage, if_true]
    split <;> exact ⟨rfl, rfl, rfl⟩
  · intro s d h
    simp only [handleAuthResponse, h, setConnectionState, showMessage, Bool.false_eq_true,
      if_false]
    exact ⟨rfl, rfl, rfl, rfl⟩

/-- Witness for C7 at the specification's scenario and a failing response. -/
theorem C7_auth_response_witness :
    (handleAuthResponse initialAppState authOkData).connectionState = "authenticated" ∧
    (handleAuthResponse initialAppState authFailData).connectionState = "disconnected" := by
  exact ⟨(C7_auth_response.1 initialAppState authOkData rfl).2.2,
         (C7_auth_response.2 initialAppState authFailData rfl).1⟩

/-- C8: `create_account` is sent exactly when all three fields are
non-empty, the two passwords match and the socket is open; in every other
case the submission fails locally and no frame is sent. -/
theorem C8_create_account_validation (s : AppState) (u p c : String) :
    (handleCreateAccountSubmit s u p c).sentFrames =
      if u ≠ "" ∧ p ≠ "" ∧ c ≠ "" ∧ p = c ∧ s.websocketOpen = true
      then s.sentFrames ++ [Frame.createAccount u p]
      else s.sentFrames := by
  by_cases hu : u = "" <;> by_cases hp : p = "" <;> by_cases hc : c = "" <;>
    by_cases hpc : p = c <;> by_cases hw : s.websocketOpen = true <;>
    simp [handleCreateAccountSubmit, sendWebSocketMessage, showMessage, hu, hp, hc, hpc, hw]

/-- C9 (counterexample): logging out of a state holding all three persisted
records leaves both the `currentDebate` and the `finalDebateData` records
in client-local storage — logout does not clear all three. -/
theorem C9_logout_counterexample :
    (handleLogout allStoredState).localStore.currentDebate = some storedCtx ∧
    (handleLogout allStoredState).localStore.finalDebateData = some storedFinal :=
  ⟨rfl, rfl⟩

/-- C9 (amended): logout clears only the persisted Identity (`debateUser`);
the persisted DebateContext (`currentDebate`) and final transcript
(`finalDebateData`) are left untouched by logout and are instead cleared
by the end page's return-to-lobby action, which in turn leaves the
Identity untouched. -/
theorem C9_logout_clears_identity_only (s : AppState) :
    (handleLogout s).localStore.debateUser = none ∧
    (handleLogout s).localStore.currentDebate = s.localStore.currentDebate ∧
    (handleLogout s).localStore.finalDebateData = s.localStore.finalDebateData ∧
    (returnToLobby s).localStore.currentDebate = none ∧
    (returnToLobby s).localStore.finalDebateData = none ∧
    (returnToLobby s).localStore.debateUser = s.localStore.debateUser :=
  ⟨rfl, rfl, rfl, rfl, rfl, rfl⟩

/-- C10: every successful open schedules the auto-authentication after
500 ms; firing it sends the hardcoded `authenticate{test, testpass}` frame
for any state whatsoever (so independently of entered credentials); and a
concrete page-load run sends exactly that frame. -/
theorem C10_hardcoded_test_auth :
    (∀ s : AppState, (handleWebSocketOpen s).pendingTimeouts =
        s.pendingTimeouts ++ [(500, TimedAction.testAuth)]) ∧
    (∀ s : AppState, s.websocketOpen = true →
        (authenticateTestUser s).sentFrames =
          s.sentFrames ++ [Frame.authenticate "test" "testpass"]) ∧
    (runEvents initialAppState
        [AppEvent.connectPage true, AppEvent.wsOpen, AppEvent.fireTestAuth]).sentFrames =
      [Frame.authenticate "test" "testpass"] := by
  refine ⟨fun s => rfl, fun s h => ?_, by decide⟩
  simp [authenticateTestUser, sendWebSocketMessage, h]

/-- Witness for C10 at a concrete open-socket state. -/
theorem C10_hardcoded_test_auth_witness :
    (authenticateTestUser { initialAppState with websocketOpen := true }).sentFrames =
      [Frame.authenticate "test" "testpass"] := by
  have h := C10_hardcoded_test_auth.2.1 { initialAppState with websocketOpen := true } rfl
  simpa using h
